import Mathlib

/-!
Verification of the coda-helper repository configuration material.

The repository consists of declarative configuration only:
* `ecosystem.config.js` — a process-manager (PM2) descriptor followed by the
  project README;
* a packaging manifest (pyproject.toml, supplied unnamed) with poetry
  dependency groups, build-system, ruff, mypy and coverage configuration.

Each file is embedded below as plain Lean data, transcribed directly from the
source, and the claims are settled as decidable theorems over that data.
-/

/-- A value occurring in the process-manager descriptor object: the
descriptor only contains strings, integers, booleans and one flat
string-to-string object (the `env` mapping). -/
inductive ConfigValue where
  | str : String → ConfigValue
  | int : Int → ConfigValue
  | boolean : Bool → ConfigValue
  | table : List (String × String) → ConfigValue
deriving DecidableEq, Repr

/-- The single element of the `apps` array in `ecosystem.config.js`,
transcribed key by key in source order. -/
def codaHelperApp : List (String × ConfigValue) :=
  [("name", ConfigValue.str "coda-helper"),
   ("script", ConfigValue.str "run.py"),
   ("interpreter", ConfigValue.str "./venv/bin/python"),
   ("instances", ConfigValue.int 1),
   ("exec_mode", ConfigValue.str "fork"),
   ("watch", ConfigValue.boolean true),
   ("env", ConfigValue.table [("PYTHONPATH", ".")])]

/-- The `apps` array of `module.exports` in `ecosystem.config.js`. -/
def ecosystemApps : List (List (String × ConfigValue)) :=
  [codaHelperApp]

/-- The keys the spec documents for the descriptor in its external-interface
section, in the order the spec lists them.  This definition follows the
wording of the spec, not the source, and is compared against the source
transcription `codaHelperApp`. -/
def specDocumentedKeys : List String :=
  ["name", "script", "interpreter", "instances", "exec_mode", "watch", "env"]

/-- The `env` object of an app entry, empty when absent. -/
def envOfApp (app : List (String × ConfigValue)) : List (String × String) :=
  match List.lookup "env" app with
  | some (ConfigValue.table kvs) => kvs
  | _ => []

/-- The `interpreter` string of an app entry. -/
def interpreterOfApp (app : List (String × ConfigValue)) : Option String :=
  match List.lookup "interpreter" app with
  | some (ConfigValue.str s) => some s
  | _ => none

/-- Split a character list at every occurrence of a separator. -/
def splitChars (sep : Char) : List Char → List (List Char)
  | [] => [[]]
  | c :: cs =>
    let rest := splitChars sep cs
    if c = sep then [] :: rest
    else
      match rest with
      | [] => [[c]]
      | r :: rs => (c :: r) :: rs

/-- The slash-separated segments of a path string. -/
def pathSegments (s : String) : List String :=
  (splitChars (Char.ofNat 47) s.data).map fun cs => String.mk cs

/-!
The README (second part of `ecosystem.config.js` in the supplied material).
Shell commands are transcribed as their whitespace-separated token lists,
in the order the README presents them.
-/

/-- The bullet items of the README Requirements section. -/
def readmeRequirements : List String :=
  ["Python 3.10+", "Poetry"]

/-- The shell commands of the README Installation section (clone, virtual
environment setup, dependency installation, hook installation), each as its
token list. -/
def readmeSetupCommands : List (List String) :=
  [["git", "clone", "git@github.com:ducminh-phan/fastapi-service-template.git"],
   ["cd", "fastapi-service-template"],
   ["pyenv", "local", "3.10.9"],
   ["pyenv", "exec", "python3", "-m", "venv", "venv"],
   ["source", "./venv/bin/activate"],
   ["poetry", "install"],
   ["make", "install-git-hooks"]]

/-- The operator-facing commands the README documents after installation:
each pair is the section heading and the token list of the one command the
section shows. -/
def readmeOperatorCommands : List (String × List String) :=
  [("Running", ["make", "run"]),
   ("Run tests", ["make", "test"])]

/-- The directory argument of the virtual-environment creation command in the
README setup steps: the final token of the command invoking the `venv`
module. -/
def createdVenvDir : String :=
  (((readmeSetupCommands.filter
      (fun c => c.contains "-m" && c.contains "venv")).headD []).getLastD "")

/-!
The packaging manifest (pyproject.toml, supplied as an unnamed source file),
transcribed table by table.
-/

/-- The `[tool.poetry]` identity fields, as key-value pairs in source order. -/
def poetryIdentity : List (String × String) :=
  [("name", "fastapi-service-template"),
   ("version", "0.1.0"),
   ("description", ""),
   ("authors", "Duc-Minh Phan <alephvn@gmail.com>"),
   ("license", "Apache License 2.0"),
   ("readme", "README.md")]

/-- The `[tool.poetry.dependencies]` table: package name to version
constraint, in source order. -/
def poetryDependencies : List (String × String) :=
  [("python", "^3.10"),
   ("fastapi", "^0.111.0"),
   ("pydantic", "^2.7.1"),
   ("pydantic-settings", "^2.2.1"),
   ("python-dotenv", "^1.0.1"),
   ("uvicorn", "^0.29.0")]

/-- The `[tool.poetry.group.dev.dependencies]` table, in source order. -/
def poetryDevDependencies : List (String × String) :=
  [("asgiref", "^3.8.1"),
   ("coverage", "^7.5.1"),
   ("httpx", "^0.27.0"),
   ("pytest", "^7.4.4"),
   ("pytest-asyncio", "^0.21.2"),
   ("pytest-cov", "^4.1.0"),
   ("pytest-mock", "^3.14.0")]

/-- The `[build-system]` table. -/
def buildSystemRequires : List String := ["poetry-core"]

/-- The build backend declared in `[build-system]`. -/
def buildBackend : String := "poetry.core.masonry.api"

/-- `[tool.ruff]` top-level settings. -/
def ruffLineLength : Nat := 88

/-- The ruff `target-version` setting. -/
def ruffTargetVersion : String := "py310"

/-- The ruff `extend-exclude` list. -/
def ruffExtendExclude : List String := ["migrations"]

/-- The `[tool.ruff.lint]` `select` list of enabled rule categories. -/
def ruffLintSelect : List String :=
  ["F", "E", "W", "I", "ASYNC", "S", "COM", "C4", "ISC", "INP", "T20",
   "RSE", "RET", "SIM", "C90", "PERF", "UP", "RUF"]

/-- The `[tool.ruff.lint]` `ignore` list. -/
def ruffLintIgnore : List String := ["S101", "S105", "S301", "RUF012"]

/-- The `[tool.ruff.lint.isort]` settings. -/
def ruffIsortLinesAfterImports : Nat := 2

/-- The isort `split-on-trailing-comma` flag. -/
def ruffIsortSplitOnTrailingComma : Bool := false

/-- The isort `forced-separate` list. -/
def ruffIsortForcedSeparate : List String := ["tests"]

/-- The `[tool.ruff.lint.mccabe]` complexity threshold. -/
def ruffMccabeMaxComplexity : Nat := 10

/-- The `[tool.ruff.lint.per-file-ignores]` table. -/
def ruffPerFileIgnores : List (String × List String) :=
  [("__init__.py", ["F401"]),
   ("tests/*", ["S106", "S311", "ASYNC101"])]

/-- The `[tool.mypy]` boolean flags, as key-value pairs. -/
def mypyFlags : List (String × Bool) :=
  [("ignore_missing_imports", true),
   ("strict_optional", true),
   ("check_untyped_defs", true)]

/-- The mypy `follow_imports` setting. -/
def mypyFollowImports : String := "silent"

/-- The mypy plugin list. -/
def mypyPlugins : List String := ["pydantic.mypy"]

/-- The `[[tool.mypy.overrides]]` entries: module pattern and the
`disable_error_code` value. -/
def mypyOverrides : List (String × String) := [("tests.*", "var-annotated")]

/-- The `[tool.coverage.run]` `source` list: the source roots the coverage
tool measures. -/
def coverageRunSource : List String := ["main"]

/-- The `[tool.coverage.run]` `concurrency` list. -/
def coverageRunConcurrency : List String := ["greenlet", "thread"]

/-- The `[tool.coverage.report]` `exclude_lines` list. -/
def coverageReportExcludeLines : List String :=
  ["pragma: no cover",
   "def __repr__",
   "raise AssertionError",
   "raise NotImplementedError",
   "if __name__ == .__main__.:",
   "if TYPE_CHECKING:",
   "@abstractmethod",
   "@overload"]

/-- The string values appearing in the descriptor object. -/
def configValueStrings : ConfigValue → List String
  | ConfigValue.str s => [s]
  | ConfigValue.int _ => []
  | ConfigValue.boolean _ => []
  | ConfigValue.table kvs => kvs.map Prod.fst ++ kvs.map Prod.snd

/-- Every string occurring in the supplied files outside the coverage
`source` list: descriptor keys and values, README requirement items, README
command tokens and section headings, poetry identity fields, dependency
names and constraints, build-system entries, ruff, mypy and the remaining
coverage settings. -/
def otherSuppliedStrings : List String :=
  codaHelperApp.map Prod.fst
    ++ (codaHelperApp.map Prod.snd).flatMap configValueStrings
    ++ readmeRequirements
    ++ readmeSetupCommands.flatten
    ++ readmeOperatorCommands.map Prod.fst
    ++ (readmeOperatorCommands.map Prod.snd).flatten
    ++ poetryIdentity.map Prod.fst ++ poetryIdentity.map Prod.snd
    ++ poetryDependencies.map Prod.fst ++ poetryDependencies.map Prod.snd
    ++ poetryDevDependencies.map Prod.fst ++ poetryDevDependencies.map Prod.snd
    ++ buildSystemRequires ++ [buildBackend]
    ++ [ruffTargetVersion] ++ ruffExtendExclude
    ++ ruffLintSelect ++ ruffLintIgnore ++ ruffIsortForcedSeparate
    ++ ruffPerFileIgnores.map Prod.fst
    ++ (ruffPerFileIgnores.map Prod.snd).flatten
    ++ mypyFlags.map Prod.fst ++ [mypyFollowImports] ++ mypyPlugins
    ++ mypyOverrides.map Prod.fst ++ mypyOverrides.map Prod.snd
    ++ coverageRunConcurrency ++ coverageReportExcludeLines

/-- A version constraint is a caret (semantic-version) constraint when its
first character is the caret. -/
def isCaretConstraint (s : String) : Bool :=
  s.data.headD ' ' == '^'

/-- Claim C1, as stated, is false: the descriptor does contain exactly one
app entry, but that entry has seven keys, not five. -/
theorem c1_counterexample :
    ¬ (ecosystemApps.length = 1 ∧
        ((ecosystemApps.headD []).map Prod.fst).length = 5) := by
  decide

/-- Claim C1 (amended): the process-manager descriptor contains exactly one
app entry, and that entry has exactly seven keys, namely the seven keys the
spec documents in its external-interface section, in the same order. -/
theorem c1_app_entry_keys :
    ecosystemApps = [codaHelperApp] ∧
    codaHelperApp.map Prod.fst = specDocumentedKeys ∧
    specDocumentedKeys.length = 7 := by
  decide

/-- Claim C2: the descriptor declares exactly one managed process, whose
name field equals "coda-helper" and whose script field equals "run.py". -/
theorem c2_single_app_name_script :
    ecosystemApps.length = 1 ∧
    List.lookup "name" (ecosystemApps.headD []) =
      some (ConfigValue.str "coda-helper") ∧
    List.lookup "script" (ecosystemApps.headD []) =
      some (ConfigValue.str "run.py") := by
  decide

/-- Claim C3: besides the python interpreter constraint, the runtime
dependency table lists exactly five packages — the web framework (fastapi),
the data-validation library (pydantic), the settings loader
(pydantic-settings), the dotenv loader (python-dotenv) and the ASGI server
(uvicorn) — and every entry of the table carries a caret semantic-version
constraint. -/
theorem c3_runtime_dependencies :
    (poetryDependencies.filter (fun p => p.1 ≠ "python")).map Prod.fst =
      ["fastapi", "pydantic", "pydantic-settings", "python-dotenv",
       "uvicorn"] ∧
    ((poetryDependencies.filter (fun p => p.1 ≠ "python")).map
      Prod.fst).length = 5 ∧
    poetryDependencies.all (fun p => isCaretConstraint p.2) = true := by
  decide

/-- Claim C4, as stated, is false: the development dependency table has
seven entries, not five. -/
theorem c4_counterexample :
    ¬ ((poetryDevDependencies.map Prod.fst).length = 5) := by
  decide

/-- Claim C4 (amended): the development dependency set consists of seven
packages: the five claimed ones — test runner (pytest), coverage tool
(coverage), HTTP test client (httpx), mocking plugin (pytest-mock) and
async test plugin (pytest-asyncio) — plus asgiref and the coverage plugin
pytest-cov, each with a caret semantic-version constraint. -/
theorem c4_dev_dependencies :
    poetryDevDependencies.map Prod.fst =
      ["asgiref", "coverage", "httpx", "pytest", "pytest-asyncio",
       "pytest-cov", "pytest-mock"] ∧
    (poetryDevDependencies.map Prod.fst).length = 7 ∧
    (poetryDevDependencies.map Prod.fst).filter
      (fun n => !(["pytest", "coverage", "httpx", "pytest-mock",
        "pytest-asyncio"].contains n)) = ["asgiref", "pytest-cov"] ∧
    poetryDevDependencies.all (fun p => isCaretConstraint p.2) = true := by
  decide

/-- Claim C5: in the descriptor single app entry, instances equals 1,
exec_mode equals "fork", and watch is the boolean true. -/
theorem c5_instances_fork_watch :
    ecosystemApps.length = 1 ∧
    List.lookup "instances" (ecosystemApps.headD []) =
      some (ConfigValue.int 1) ∧
    List.lookup "exec_mode" (ecosystemApps.headD []) =
      some (ConfigValue.str "fork") ∧
    List.lookup "watch" (ecosystemApps.headD []) =
      some (ConfigValue.boolean true) := by
  decide

/-- Claim C6: the env mapping of the single app entry contains exactly one
key-value pair, and its key is PYTHONPATH. -/
theorem c6_env_single_pythonpath :
    ecosystemApps.length = 1 ∧
    (envOfApp (ecosystemApps.headD [])).length = 1 ∧
    (envOfApp (ecosystemApps.headD [])).map Prod.fst = ["PYTHONPATH"] := by
  decide

/-- Claim C7: the interpreter field of the single app entry is
"./venv/bin/python", a path whose leading segments are the project-local
directory "." followed by exactly the virtual-environment directory that
the README setup steps create ("venv"). -/
theorem c7_interpreter_venv :
    interpreterOfApp (ecosystemApps.headD []) = some "./venv/bin/python" ∧
    createdVenvDir = "venv" ∧
    (interpreterOfApp (ecosystemApps.headD [])).any
      (fun i => (pathSegments i).take 2 == [".", createdVenvDir]) = true := by
  decide

/-- Claim C8: the packaging manifest python dependency equals "^3.10", and
the README requirements list Python 3.10 or newer. -/
theorem c8_python_constraint :
    List.lookup "python" poetryDependencies = some "^3.10" ∧
    readmeRequirements.contains "Python 3.10+" = true := by
  decide

/-- Claim C9: the README documents exactly two operator-facing commands,
under the Running and Run-tests headings; each invokes make with a single
target (run, then test) and no further flags or arguments. -/
theorem c9_operator_commands :
    readmeOperatorCommands.length = 2 ∧
    readmeOperatorCommands.map Prod.snd =
      [["make", "run"], ["make", "test"]] ∧
    readmeOperatorCommands.all
      (fun c => c.2.headD "" == "make" && c.2.length == 2) = true := by
  decide

/-- Claim C10: the coverage-run configuration measures exactly one source
root, the module name "main", and tracks exactly the concurrency models
"greenlet" and "thread"; neither "main" nor "main.py" occurs among the
strings appearing anywhere else in the supplied files. -/
theorem c10_coverage_run :
    coverageRunSource = ["main"] ∧
    coverageRunSource.length = 1 ∧
    coverageRunConcurrency = ["greenlet", "thread"] ∧
    otherSuppliedStrings.contains "main" = false ∧
    otherSuppliedStrings.contains "main.py" = false := by
  decide
